import Mathlib

/-!
Verification of the message-classification pipeline and salary-extraction
subsystem of the telegram-job-scraper repository.

The Python modules `src/salary_extractor.py` and `src/filters.py` are given a
shallow embedding below.  Conventions of the embedding:

* Python `str` values are `List Char`; Python `str.lower()` / `str.upper()`
  are embedded for the ASCII and Cyrillic alphabets, which cover every
  character occurring in the program's keyword tables and patterns.
* Python `Decimal` values are embedded as the type `Dec`: an integer
  numerator together with a power-of-ten denominator exponent, exactly the
  values `Decimal` takes on the digit strings this program parses.  Numeric
  comparison (`==`, `<`, `>` on `Decimal`) is cross-multiplied comparison.
* `None`-able values are `Option`; Python truthiness of a `Decimal`-or-`None`
  (`if x:`) is `none`-or-numerically-zero = falsy.
* The regular-expression patterns of the source are embedded by a small
  backtracking matcher (`M` below) whose alternatives are explored in
  Python's priority order (greedy quantifiers longest first, alternation
  left to right, leftmost match wins, `finditer` resumes after the match);
  every construct the source's eleven salary patterns and seven experience
  patterns use is embedded directly.
* Functions that Python evaluates for side effects only (logging) are
  dropped; exception handling is embedded with `Except`.
-/

/-! ## Python string primitives -/

/-- `str.lower()` on one character, for the ASCII and Cyrillic ranges
(the only cased characters appearing in the program's data). -/
def lowerChar (c : Char) : Char :=
  let n := c.toNat
  if 65 ≤ n ∧ n ≤ 90 then Char.ofNat (n + 32)
  else if 0x410 ≤ n ∧ n ≤ 0x42F then Char.ofNat (n + 0x20)
  else if n = 0x401 then Char.ofNat 0x451
  else c

/-- `str.upper()` on one character, for the ASCII and Cyrillic ranges. -/
def upperChar (c : Char) : Char :=
  let n := c.toNat
  if 97 ≤ n ∧ n ≤ 122 then Char.ofNat (n - 32)
  else if 0x430 ≤ n ∧ n ≤ 0x44F then Char.ofNat (n - 0x20)
  else if n = 0x451 then Char.ofNat 0x401
  else c

/-- `str.lower()`. -/
def pyLower (s : List Char) : List Char := s.map lowerChar

/-- `str.upper()`. -/
def pyUpper (s : List Char) : List Char := s.map upperChar

/-- Whether `needle` is an initial segment of `hay`. -/
def beginsWith : List Char → List Char → Bool
  | _, [] => true
  | [], _ :: _ => false
  | c :: cs, d :: ds => c == d && beginsWith cs ds

/-- Python substring containment `needle in hay`. -/
def strContains (hay needle : List Char) : Bool :=
  match hay with
  | [] => needle.isEmpty
  | _ :: t => beginsWith hay needle || strContains t needle

/-- Python `hay.find(needle)`: index of the first occurrence, `-1` if absent. -/
def pyFind (hay needle : List Char) : Int :=
  match hay with
  | [] => if needle.isEmpty then 0 else -1
  | _ :: t =>
    if beginsWith hay needle then 0
    else
      let r := pyFind t needle
      if r < 0 then -1 else r + 1

/-- The ASCII whitespace characters of Python's `\s` class and `str.strip()`. -/
def isSpaceChar (c : Char) : Bool :=
  c == ' ' || c == '\t' || c == '\n' || c == '\x0d' || c == '\x0b' || c == '\x0c'

/-- Python `str.strip()`. -/
def pyStrip (s : List Char) : List Char :=
  ((s.dropWhile isSpaceChar).reverse.dropWhile isSpaceChar).reverse

/-! ## Exact decimals (`decimal.Decimal`)

`Dec` represents the value `num / 10 ^ exp`.  Equality and order on Python
`Decimal`s are numeric, embedded by cross multiplication. -/

structure Dec where
  num : Int
  exp : Nat
deriving DecidableEq, Repr

/-- Numeric equality of decimals (`Decimal.__eq__`). -/
def Dec.eqv (a b : Dec) : Bool :=
  a.num * (10 : Int) ^ b.exp == b.num * (10 : Int) ^ a.exp

/-- Numeric order on decimals (`Decimal.__le__`). -/
def Dec.le (a b : Dec) : Bool :=
  decide (a.num * (10 : Int) ^ b.exp ≤ b.num * (10 : Int) ^ a.exp)

/-- Numeric strict order on decimals (`Decimal.__lt__`). -/
def Dec.lt (a b : Dec) : Bool :=
  decide (a.num * (10 : Int) ^ b.exp < b.num * (10 : Int) ^ a.exp)

/-- `a > b` on decimals (`Decimal.__gt__`). -/
def Dec.gt (a b : Dec) : Bool := Dec.lt b a

/-- Multiplication of a decimal by an integer factor. -/
def Dec.mulInt (a : Dec) (k : Int) : Dec := ⟨a.num * k, a.exp⟩

/-- Python truthiness of a `Decimal`: zero is falsy. -/
def Dec.truthy (a : Dec) : Bool := a.num != 0

/-- Python truthiness of an `Optional[Decimal]`: `None` and zero are falsy. -/
def optDecTruthy : Option Dec → Bool
  | none => false
  | some d => d.truthy

/-- Numeric equality of `Optional[Decimal]` values (`None == None` is true,
`None == Decimal(...)` is false). -/
def optDecEqv : Option Dec → Option Dec → Bool
  | none, none => true
  | some a, some b => a.eqv b
  | _, _ => false

/-! ## `SalaryExtractor._parse_amount` -/

/-- Value of a digit character. -/
def digitVal (c : Char) : Nat := c.toNat - 48

/-- Fold a digit list into a natural number. -/
def digitsToNat (l : List Char) : Nat :=
  l.foldl (fun acc c => acc * 10 + digitVal c) 0

/-- The `Decimal(str)` constructor on the token alphabet this program
produces: an optional point between digit runs, at least one digit, nothing
else.  Tokens outside this plain numeric-string form (letters, embedded
spaces, empty remainders) fail, embedding `InvalidOperation` as `none`. -/
def parseDecimalStr (s : List Char) : Option Dec :=
  if s.isEmpty then none
  else if s.all Char.isDigit then
    some ⟨(digitsToNat s : Int), 0⟩
  else
    let intPart := s.takeWhile Char.isDigit
    let rest := s.drop intPart.length
    match rest with
    | '.' :: fracPart =>
      if fracPart.all Char.isDigit ∧ (intPart.length + fracPart.length > 0) then
        some ⟨(digitsToNat intPart * 10 ^ fracPart.length + digitsToNat fracPart : Nat), fracPart.length⟩
      else none
    | _ => none

/-- `SalaryExtractor._parse_amount`: strip commas and outer whitespace,
rewrite a trailing `k`/`K` to `000`, then parse; any failure is `None`. -/
def parse_amount (amountStr : List Char) : Option Dec :=
  if amountStr.isEmpty then none
  else
    let s := pyStrip (amountStr.filter (fun c => c ≠ ','))
    let s :=
      if (pyLower s).getLast? = some 'k' then s.dropLast ++ ['0', '0', '0']
      else s
    parseDecimalStr s

/-! ## A backtracking pattern matcher

`M` sends a matcher state (remaining input, captured groups so far) to the
list of possible successor states in Python `re` priority order: the head of
the list is the match Python's engine commits to.  All patterns in the
source consume at least one character per quantifier iteration, so a fuel
bound by the input length makes every star total. -/

structure MState where
  rest : List Char
  groups : List (List Char)
deriving Repr

/-- A matcher: priority-ordered nondeterminism over matcher states. -/
def M : Type := MState → List MState

/-- Empty pattern. -/
def mEps : M := fun s => [s]

/-- Sequencing, preserving priority order. -/
def mSeq (a b : M) : M := fun s => (a s).flatMap b

/-- Sequence a list of matchers. -/
def mCat (l : List M) : M := l.foldr mSeq mEps

/-- Single character satisfying a predicate. -/
def mPred (p : Char → Bool) : M := fun s =>
  match s.rest with
  | c :: cs => if p c then [⟨cs, s.groups⟩] else []
  | [] => []

/-- One literal character, case-insensitively (`re.IGNORECASE`); the pattern
character is stored lowercase. -/
def mChar (c : Char) : M := mPred (fun d => lowerChar d == c)

/-- A literal string, case-insensitively. -/
def mLit (lit : String) : M := mCat (lit.data.map mChar)

/-- Ordered alternation `(x|y|...)`: alternatives tried left to right. -/
def mAlt (l : List M) : M := fun s => (l.map (fun m => m s)).flatMap id

/-- Greedy option `x?`: with `x` first, then without. -/
def mOpt (a : M) : M := fun s => a s ++ [s]

/-- Greedy star, fueled; zero-width iterations are cut off (no source
pattern has a nullable star body). -/
def mStarFuel (a : M) : Nat → M
  | 0 => mEps
  | n + 1 => fun s =>
    (((a s).filter (fun t => t.rest.length < s.rest.length)).flatMap
      (mStarFuel a n)) ++ [s]

/-- Greedy star `x*`. -/
def mStar (a : M) : M := fun s => mStarFuel a s.rest.length s

/-- Greedy plus `x+`. -/
def mPlus (a : M) : M := mSeq a (mStar a)

/-- Greedy counted repetition `x{1,n}`: longest first. -/
def mRep1To (n : Nat) (a : M) : M :=
  mAlt ((List.range n).map (fun i => mCat (List.replicate (n - i) a)))

/-- A capturing group: records the consumed substring, in group order
(the source's groups never nest). -/
def mGroup (a : M) : M := fun s =>
  (a s).map (fun t =>
    { t with groups := s.groups ++ [s.rest.take (s.rest.length - t.rest.length)] })

/-- Run a matcher at the head of `input`: Python-priority first match,
returning consumed length and captured groups. -/
def runMatcher (m : M) (input : List Char) : Option (Nat × List (List Char)) :=
  match m ⟨input, []⟩ with
  | [] => none
  | t :: _ => some (input.length - t.rest.length, t.groups)

/-- `re.finditer` worker: scan for the leftmost match, emit it, resume after
its end (advance one character on the impossible zero-width match). -/
def finditerAux (m : M) : Nat → Nat → List Char → List (Nat × List Char × List (List Char))
  | 0, _, _ => []
  | fuel + 1, pos, s =>
    match runMatcher m s with
    | some (n, gs) =>
      if n = 0 then
        match s with
        | [] => [(pos, [], gs)]
        | _ :: t => (pos, [], gs) :: finditerAux m fuel (pos + 1) t
      else (pos, s.take n, gs) :: finditerAux m fuel (pos + n) (s.drop n)
    | none =>
      match s with
      | [] => []
      | _ :: t => finditerAux m fuel (pos + 1) t

/-- `re.finditer`: every non-overlapping match as
(start position, matched text, groups). -/
def finditer (m : M) (text : List Char) : List (Nat × List Char × List (List Char)) :=
  finditerAux m (text.length + 1) 0 text

/-- `re.findall` for a single-group pattern: the captured group of every
match. -/
def findallGroup1 (m : M) (text : List Char) : List (List Char) :=
  (finditer m text).map (fun r => r.2.2.headD [])

/-! ## The salary patterns (`SalaryExtractor.salary_patterns`) -/

/-- `\s` -/
def mSpace : M := mPred isSpaceChar

/-- `\s*` -/
def mSpaces : M := mStar mSpace

/-- `\s+` -/
def mSpaces1 : M := mPlus mSpace

/-- `\d` -/
def mDigit : M := mPred Char.isDigit

/-- The currency-symbol class `[$€£¥₹₽₴₸₿]`. -/
def currencySymbols : List Char := "$€£¥₹₽₴₸₿".data

/-- `([$€£¥₹₽₴₸₿])` -/
def mSymG : M := mGroup (mPred (fun c => currencySymbols.contains c))

/-- `[-–—]` -/
def mDash : M := mPred (fun c => c == '-' || c == '–' || c == '—')

/-- `(\d{1,3}(?:,\d{3})*(?:\s*k)?)` — the amount token. -/
def mAmountG : M :=
  mGroup (mCat
    [ mRep1To 3 mDigit,
      mStar (mCat [mPred (fun c => c == ','), mDigit, mDigit, mDigit]),
      mOpt (mCat [mSpaces, mChar 'k']) ])

/-- `(usd|eur|gbp|jpy|inr|rub|uah|kzt|btc|dollars?|euros?|pounds?|руб(?:лей|я)?|гривен?|тенге)` -/
def mCurWordG : M :=
  mGroup (mAlt
    [ mLit "usd", mLit "eur", mLit "gbp", mLit "jpy", mLit "inr", mLit "rub",
      mLit "uah", mLit "kzt", mLit "btc",
      mCat [mLit "dollar", mOpt (mChar 's')],
      mCat [mLit "euro", mOpt (mChar 's')],
      mCat [mLit "pound", mOpt (mChar 's')],
      mCat [mLit "руб", mOpt (mAlt [mLit "лей", mLit "я"])],
      mCat [mLit "гриве", mOpt (mChar 'н')],
      mLit "тенге" ])

/-- `(руб(?:лей|я)?|гривен?|тенге)` -/
def mRubWordG : M :=
  mGroup (mAlt
    [ mCat [mLit "руб", mOpt (mAlt [mLit "лей", mLit "я"])],
      mCat [mLit "гриве", mOpt (mChar 'н')],
      mLit "тенге" ])

/-- `(hour|day|week|month|year|annum|annual)` -/
def mPeriodWordG : M :=
  mGroup (mAlt
    [ mLit "hour", mLit "day", mLit "week", mLit "month", mLit "year",
      mLit "annum", mLit "annual" ])

/-- `(?:per\s+)?` -/
def mPerOpt : M := mOpt (mCat [mLit "per", mSpaces1])

/-- The eleven compiled salary patterns, in source order. -/
def salary_patterns : List M :=
  [ mCat [mSymG, mSpaces, mAmountG],
    mCat [mAmountG, mSpaces, mSymG],
    mCat [mAmountG, mSpaces, mCurWordG],
    mCat [mSymG, mSpaces, mAmountG, mSpaces, mDash, mSpaces, mAmountG],
    mCat [mAmountG, mSpaces, mDash, mSpaces, mAmountG, mSpaces, mSymG],
    mCat [mAmountG, mSpaces, mDash, mSpaces, mAmountG, mSpaces, mCurWordG],
    mCat [mSymG, mSpaces, mAmountG, mSpaces, mPerOpt, mPeriodWordG],
    mCat [mAmountG, mSpaces, mPerOpt, mPeriodWordG, mSpaces, mSymG],
    mCat [mAlt [mLit "salary", mLit "pay", mLit "compensation"], mSpaces1,
          mAlt [mLit "between", mLit "from", mLit "range"], mSpaces1,
          mSymG, mSpaces, mAmountG, mSpaces, mAlt [mLit "and", mLit "to"],
          mSpaces1, mSymG, mSpaces, mAmountG],
    mCat [mLit "от", mSpaces1, mAmountG, mSpaces1, mLit "до", mSpaces1,
          mAmountG, mSpaces, mRubWordG],
    mCat [mAmountG, mSpaces, mDash, mSpaces, mAmountG, mSpaces, mRubWordG] ]

/-! ## `SalaryRange` and `SalaryExtractor` -/

/-- `SalaryRange` after `__post_init__` has run (the dataclass constructor
always runs it); see `mkSalaryRange` for the construction-time fix-ups. -/
structure SalaryRange where
  min_amount : Option Dec
  max_amount : Option Dec
  currency : List Char
  period : List Char
  is_range : Bool
  raw_text : List Char
deriving DecidableEq, Repr

/-- `SalaryExtractor.__init__`: the `currencies` lookup table, in source
order; keys are matched exactly (`in` / `.get` on the dict). -/
def currencies : List (List Char × List Char) :=
  [ ("$".data, "USD".data), ("€".data, "EUR".data), ("£".data, "GBP".data),
    ("¥".data, "JPY".data), ("₹".data, "INR".data), ("₽".data, "RUB".data),
    ("₴".data, "UAH".data), ("₸".data, "KZT".data), ("₿".data, "BTC".data),
    ("usd".data, "USD".data), ("eur".data, "EUR".data), ("gbp".data, "GBP".data),
    ("jpy".data, "JPY".data), ("dollars".data, "USD".data),
    ("euros".data, "EUR".data), ("pounds".data, "GBP".data),
    ("руб".data, "RUB".data), ("рублей".data, "RUB".data), ("рубля".data, "RUB".data),
    ("гривен".data, "UAH".data), ("гривна".data, "UAH".data), ("гривны".data, "UAH".data),
    ("тенге".data, "KZT".data) ]

/-- Dict lookup in `currencies`. -/
def currenciesLookup (k : List Char) : Option (List Char) :=
  (currencies.find? (fun p => p.1 == k)).map (fun p => p.2)

/-- `SalaryExtractor.__init__`: the `period_keywords` table, in insertion
order (the order `_detect_period` scans it in). -/
def period_keywords : List (List Char × List (List Char)) :=
  [ ("hourly".data, ["hour".data, "hr".data, "hourly".data, "per hour".data,
      "/hr".data, "/hour".data]),
    ("daily".data, ["day".data, "daily".data, "per day".data, "/day".data]),
    ("weekly".data, ["week".data, "weekly".data, "per week".data, "/week".data]),
    ("monthly".data, ["month".data, "mo".data, "monthly".data,
      "per month".data, "/month".data]),
    ("yearly".data, ["year".data, "yr".data, "annum".data, "annual".data,
      "yearly".data, "per annum".data, "per year".data, "/year".data, "pa".data]) ]

/-- `SalaryRange.__post_init__`: the `period_mapping` normalization table. -/
def period_mapping : List (List Char × List Char) :=
  [ ("hour".data, "hourly".data), ("hr".data, "hourly".data),
    ("hourly".data, "hourly".data),
    ("day".data, "daily".data), ("daily".data, "daily".data),
    ("week".data, "weekly".data), ("weekly".data, "weekly".data),
    ("month".data, "monthly".data), ("mo".data, "monthly".data),
    ("monthly".data, "monthly".data),
    ("year".data, "yearly".data), ("yr".data, "yearly".data),
    ("annum".data, "yearly".data), ("annual".data, "yearly".data),
    ("yearly".data, "yearly".data) ]

/-- Constructing a `SalaryRange` (the dataclass constructor followed by
`__post_init__`): swap reversed endpoints when both are present, uppercase
the currency, and normalize the period through `period_mapping` with
default `yearly`. -/
def mkSalaryRange (minA maxA : Option Dec) (cur per : List Char)
    (isRange : Bool) (raw : List Char) : SalaryRange :=
  let swapped : Option Dec × Option Dec :=
    match minA, maxA with
    | some a, some b => if Dec.gt a b then (some b, some a) else (some a, some b)
    | a, b => (a, b)
  { min_amount := swapped.1
    max_amount := swapped.2
    currency := pyUpper cur
    period := ((period_mapping.find? (fun p => p.1 == pyLower per)).map
      (fun p => p.2)).getD "yearly".data
    is_range := isRange
    raw_text := raw }

/-- `SalaryExtractor._detect_period`: scan a ±100-character window around
the match position for the first period keyword, defaulting to `yearly`. -/
def detect_period (text : List Char) (pos : Nat) : List Char :=
  let ctxStart := pos - 100
  let ctxEnd := min text.length (pos + 100)
  let context := pyLower ((text.drop ctxStart).take (ctxEnd - ctxStart))
  (((period_keywords.find?
      (fun p => p.2.any (fun kw => strContains context kw))).map
    (fun p => p.1)).getD "yearly".data)

/-- `SalaryExtractor._parse_match`: turn a pattern match (captured groups,
matched text, match position) into a candidate.  The four-group branch
indexes the currency dict directly; a missing key there raises `KeyError`
in Python, which `extract_salaries` swallows exactly like a `None` result,
so it is embedded as `none`. -/
def parse_match (groups : List (List Char)) (matched : List Char)
    (text : List Char) (pos : Nat) : Option SalaryRange :=
  match groups with
  | [g0, g1] =>
    match currenciesLookup g0 with
    | some cur =>
      some (mkSalaryRange (parse_amount g1) none cur (detect_period text pos)
        false matched)
    | none =>
      some (mkSalaryRange (parse_amount g0) none
        ((currenciesLookup (pyLower g1)).getD "USD".data)
        (detect_period text pos) false matched)
  | [g0, g1, g2] =>
    match currenciesLookup g0 with
    | some cur =>
      some (mkSalaryRange (parse_amount g1) (parse_amount g2) cur
        (detect_period text pos) true matched)
    | none =>
      some (mkSalaryRange (parse_amount g0) (parse_amount g1)
        ((currenciesLookup (pyLower g2)).getD "USD".data)
        (detect_period text pos) true matched)
  | [g0, g1, _, g3] =>
    match currenciesLookup g0 with
    | some cur =>
      some (mkSalaryRange (parse_amount g1) (parse_amount g3) cur
        (detect_period text pos) true matched)
    | none => none
  | _ => none

/-- The per-pattern collection loop of `SalaryExtractor.extract_salaries`:
every match of every pattern, through `_parse_match`. -/
def collectCandidates (text : List Char) : List SalaryRange :=
  salary_patterns.flatMap (fun m =>
    (finditer m text).filterMap (fun r => parse_match r.2.2 r.2.1 text r.1))

/-- The deduplication key of `_deduplicate_salaries`:
`(min_amount, max_amount, currency, period)` with Python (numeric) equality
on the `Decimal` components. -/
def dedupKeyEqv (a b : SalaryRange) : Bool :=
  optDecEqv a.min_amount b.min_amount && optDecEqv a.max_amount b.max_amount &&
    a.currency == b.currency && a.period == b.period

/-- `SalaryExtractor._deduplicate_salaries` worker: `seen` is the set of
keys already emitted. -/
def dedupAux : List SalaryRange → List SalaryRange → List SalaryRange
  | _, [] => []
  | seen, s :: rest =>
    if seen.any (fun t => dedupKeyEqv s t) then dedupAux seen rest
    else s :: dedupAux (s :: seen) rest

/-- `SalaryExtractor._deduplicate_salaries`: keep the first occurrence of
each key. -/
def deduplicate_salaries (l : List SalaryRange) : List SalaryRange :=
  dedupAux [] l

/-- The sort key of `extract_salaries`: `s.min_amount or Decimal('0')`
(`or` falls through on `None` and on falsy `Decimal('0')`). -/
def sortKey (s : SalaryRange) : Dec :=
  match s.min_amount with
  | some d => if d.truthy then d else ⟨0, 0⟩
  | none => ⟨0, 0⟩

/-- Stable insertion into a list sorted ascending by `sortKey` (the element
being inserted comes from an earlier position than the list's elements, so
it goes before key-equal elements, as Python's stable `sorted` places it). -/
def insertSorted (x : SalaryRange) : List SalaryRange → List SalaryRange
  | [] => [x]
  | y :: ys =>
    if Dec.le (sortKey x) (sortKey y) then x :: y :: ys
    else y :: insertSorted x ys

/-- Python `sorted(..., key=lambda s: s.min_amount or Decimal('0'))`:
stable ascending sort. -/
def sortByMin : List SalaryRange → List SalaryRange
  | [] => []
  | x :: xs => insertSorted x (sortByMin xs)

/-- `SalaryExtractor.extract_salaries`: empty text short-circuits to `[]`;
otherwise collect all pattern matches, deduplicate, and sort ascending by
minimum amount.  (The per-match `try/except` that skips candidates raising
during parsing is embedded by `parse_match` returning `none`.) -/
def extract_salaries (text : List Char) : List SalaryRange :=
  if text.isEmpty then []
  else sortByMin (deduplicate_salaries (collectCandidates text))

/-- `SalaryExtractor.normalize_to_yearly`: the conversion-factor table. -/
def conversions : List (List Char × Int) :=
  [ ("hourly".data, 2080), ("daily".data, 260), ("weekly".data, 52),
    ("monthly".data, 12) ]

/-- `SalaryExtractor.normalize_to_yearly`, as the value of the object the
call returns: an already-yearly salary is returned unchanged; otherwise the
truthy endpoints are multiplied by the period factor (default 1) and the
period becomes `yearly`.  (In Python this mutates the argument and returns
it; `normalize_to_yearly_call` below models the aliasing.) -/
def normalize_to_yearly (s : SalaryRange) : SalaryRange :=
  if s.period == "yearly".data then s
  else
    let factor := ((conversions.find? (fun p => p.1 == s.period)).map
      (fun p => p.2)).getD 1
    { s with
      min_amount :=
        match s.min_amount with
        | some d => if d.truthy then some (d.mulInt factor) else some d
        | none => none
      max_amount :=
        match s.max_amount with
        | some d => if d.truthy then some (d.mulInt factor) else some d
        | none => none
      period := "yearly".data }

/-- The full effect of a `normalize_to_yearly(salary)` call: first component
is the returned value, second is the value of the *argument* after the call.
The source returns `salary` itself after assigning to its fields, so the two
components are the same object. -/
def normalize_to_yearly_call (s : SalaryRange) : SalaryRange × SalaryRange :=
  (normalize_to_yearly s, normalize_to_yearly s)

/-- `SalaryExtractor.filter_by_range`.  Each candidate is normalized to
yearly (in place: the object appended to the result is the candidate after
that mutation); `_convert_currency` is the identity placeholder; a candidate
is skipped when the min bound, the candidate's yearly max, and their
comparison all hold (truthiness guards), and symmetrically for the max
bound. -/
def filter_by_range (salaries : List SalaryRange)
    (minSalary maxSalary : Option Dec) (currency : List Char) :
    List SalaryRange :=
  match salaries with
  | [] => []
  | s :: rest =>
    let yearly := normalize_to_yearly s
    let skipMin : Bool :=
      match minSalary, yearly.max_amount with
      | some mn, some mx => mn.truthy && mx.truthy && Dec.lt mx mn
      | _, _ => false
    let skipMax : Bool :=
      match maxSalary, yearly.min_amount with
      | some mxB, some mn => mxB.truthy && mn.truthy && Dec.gt mn mxB
      | _, _ => false
    if skipMin || skipMax then filter_by_range rest minSalary maxSalary currency
    else yearly :: filter_by_range rest minSalary maxSalary currency

/-! ## `RussianJobFilter` keyword tables (`__init__`) -/

/-- Seniority exclusion keywords. -/
def exclude_keywords : List (List Char) :=
  ([ "senior", "сеньор", "сениор", "senior developer", "сеньор разработчик",
     "middle", "мидл", "middle developer", "мидл разработчик",
     "lead", "лид", "lead developer", "лид разработчик",
     "team lead", "тимлид", "team leader",
     "architect", "архитектор", "software architect",
     "principal", "принципал", "principal developer",
     "staff", "staff engineer", "staff разработчик" ] : List String).map String.data

/-- Resume/CV exclusion keywords (the source lists `curriculum vitae`
twice; the duplicate is kept). -/
def resume_exclude_keywords : List (List Char) :=
  ([ "резюме", "cv", "resume", "curriculum vitae", "curriculum vitae",
     "анкета", "application", "заявка", "портфолио", "portfolio",
     "ищу работу", "looking for job", "seeking position", "seeking job",
     "открыт к предложениям", "open to opportunities", "open to offers",
     "готов к переезду", "willing to relocate", "готов к релокации",
     "активно ищу", "actively seeking", "job search", "поиск работы",
     "job hunting", "career change", "смена карьеры", "смена работы",
     "переход в компанию", "company transition", "смена работодателя",
     "новые возможности", "new opportunities", "новые проекты",
     "job switch", "career move", "смена направления",
     "доступен для проектов", "available for projects", "свободен",
     "ищу проект", "looking for project", "ищу заказчика",
     "готов к сотрудничеству", "ready to collaborate",
     "ищу команду", "looking for team", "ищу компанию",
     "имею опыт в", "have experience in", "работал с", "worked with",
     "мои навыки", "my skills", "мои технологии", "my technologies",
     "знаю", "know", "изучал", "studied", "изучаю", "studying",
     "я разработчик", "i am developer", "я программист", "i am programmer",
     "моя специализация", "my specialization", "мои интересы", "my interests"
   ] : List String).map String.data

/-- Strict junior/entry-level indicator phrases. -/
def junior_keywords : List (List Char) :=
  ([ "junior developer", "джуниор разработчик", "junior разработчик",
     "junior engineer", "джуниор инженер", "junior инженер",
     "junior software developer", "джуниор программист", "junior программист",
     "junior software engineer", "джуниор софт инженер",
     "стажер разработчик", "intern developer", "стажировка разработчик",
     "trainee developer", "трени разработчик", "trainee engineer",
     "entry level developer", "entry-level developer",
     "начальный уровень разработчик",
     "без опыта разработчик", "no experience developer",
     "опыт не требуется разработчик",
     "junior python developer", "junior javascript developer",
     "junior js developer",
     "junior react developer", "junior web3 developer",
     "junior blockchain developer",
     "junior frontend developer", "junior backend developer",
     "junior full stack developer",
     "джуниор python разработчик", "джуниор javascript разработчик",
     "джуниор js разработчик",
     "джуниор react разработчик", "джуниор web3 разработчик",
     "джуниор blockchain разработчик" ] : List String).map String.data

/-- Non-developer role keywords. -/
def non_developer_keywords : List (List Char) :=
  ([ "маркетинг", "marketing", "продажи", "sales", "менеджер", "manager",
     "аналитик", "analyst", "дизайнер", "designer", "тестировщик", "tester",
     "qa", "quality assurance", "devops", "системный администратор", "sysadmin",
     "data scientist", "data analyst", "product manager", "project manager",
     "hr", "human resources", "рекрутер", "recruiter", "бухгалтер",
     "accountant" ] : List String).map String.data

/-- Keywords only allowed together with a developer/engineer term. -/
def contextual_keywords : List (List Char) :=
  ([ "web3", "web 3", "blockchain", "crypto", "nft", "defi" ] :
    List String).map String.data

/-- Remote-work indicator keywords. -/
def remote_keywords : List (List Char) :=
  ([ "remote", "удаленка", "удаленная работа", "удаленно",
     "удалённо",
     "work from home", "wfh", "home office",
     "дистанционно", "дистанционная работа",
     "онлайн", "online", "виртуально", "virtual",
     "гибрид", "hybrid", "гибридная работа" ] : List String).map String.data

/-- `(\d+)` -/
def mNumG : M := mGroup (mPlus mDigit)

/-- `(?:лет|года|год)` -/
def mYearsRu : M := mAlt [mLit "лет", mLit "года", mLit "год"]

/-- The seven `experience_patterns`, in source order. -/
def experience_patterns : List M :=
  [ mCat [mLit "опыт", mSpaces, mLit "работы", mSpaces, mNumG, mSpaces, mYearsRu],
    mCat [mNumG, mSpaces, mYearsRu, mSpaces, mLit "опыта"],
    mCat [mLit "опыт", mSpaces, mLit "от", mSpaces, mNumG, mSpaces, mYearsRu],
    mCat [mLit "опыт", mSpaces, mLit "до", mSpaces, mNumG, mSpaces, mYearsRu],
    mCat [mNumG, mOpt (mChar '+'), mSpaces, mYearsRu],
    mCat [mLit "experience", mSpaces, mNumG, mSpaces, mLit "year",
          mOpt (mChar 's')],
    mCat [mNumG, mSpaces, mLit "year", mOpt (mChar 's'), mSpaces,
          mLit "experience"] ]

/-! ## `RussianJobFilter` predicates -/

/-- `RussianJobFilter.matches_keywords` (identical in `MessageFilter`):
some configured keyword is a substring of the lowercased text. -/
def matches_keywords (keywords : List (List Char)) (text : List Char) : Bool :=
  if text.isEmpty then false
  else keywords.any (fun k => strContains (pyLower text) k)

/-- `RussianJobFilter.has_exclude_keywords`. -/
def has_exclude_keywords (text : List Char) : Bool :=
  if text.isEmpty then false
  else exclude_keywords.any (fun k => strContains (pyLower text) k)

/-- The direct resume indicators of `_is_likely_resume_context`. -/
def direct_indicators : List (List Char) :=
  ([ "резюме", "cv", "resume", "curriculum vitae", "анкета", "application" ] :
    List String).map String.data

/-- The personal-pronoun indicators of `_is_likely_resume_context`. -/
def personal_indicators : List (List Char) :=
  ([ "я", "i", "моя", "my", "меня", "me", "мне", "to me" ] :
    List String).map String.data

/-- The job-seeking regular expressions of `_is_likely_resume_context`. -/
def seeking_patterns : List M :=
  [ mCat [mLit "ищу", mSpaces1, mLit "работу"],
    mCat [mLit "looking", mSpaces1, mLit "for", mSpaces1, mLit "job"],
    mCat [mLit "seeking", mSpaces1, mLit "position"],
    mCat [mLit "открыт", mSpaces1, mLit "к", mSpaces1, mLit "предложениям"],
    mCat [mLit "open", mSpaces1, mLit "to", mSpaces1, mLit "opportunities"] ]

/-- `RussianJobFilter._is_likely_resume_context` (both arguments already
lowercased by the caller): a direct indicator, or a personal pronoun within
100 characters of the keyword's first occurrence, or a job-seeking pattern
anywhere. -/
def is_likely_resume_context (text keyword : List Char) : Bool :=
  if direct_indicators.any (fun d => d == keyword) then true
  else if personal_indicators.any (fun ind =>
      strContains text ind &&
      (pyFind text keyword - pyFind text ind).natAbs < 100) then true
  else seeking_patterns.any (fun m => !(finditer m text).isEmpty)

/-- `RussianJobFilter.has_resume_keywords`: a resume keyword occurring in a
resume-like context. -/
def has_resume_keywords (text : List Char) : Bool :=
  if text.isEmpty then false
  else
    resume_exclude_keywords.any (fun kw =>
      strContains (pyLower text) kw &&
      is_likely_resume_context (pyLower text) kw)

/-- The developer/engineer terms of `has_non_developer_keywords`. -/
def developer_terms : List (List Char) :=
  ([ "developer", "engineer", "разработчик", "инженер", "программист" ] :
    List String).map String.data

/-- `RussianJobFilter.has_non_developer_keywords`: a non-developer role
keyword, or a contextual keyword with no developer term anywhere. -/
def has_non_developer_keywords (text : List Char) : Bool :=
  if text.isEmpty then false
  else
    let tl := pyLower text
    if non_developer_keywords.any (fun k => strContains tl k) then true
    else contextual_keywords.any (fun ck =>
      strContains tl ck && !(developer_terms.any (fun d => strContains tl d)))

/-- The years figure the experience scan finds: the first `findall` match
of the first pattern that matches at all (`int()` on a `\d+` capture never
fails). -/
def experienceYearsFound (textLower : List Char) : Option Nat :=
  (experience_patterns.findSome? (fun m =>
    (findallGroup1 m textLower).head?)).map digitsToNat

/-- `RussianJobFilter.matches_experience_requirements`: a junior keyword
accepts unless the non-developer check fires; otherwise an explicit years
figure accepts iff it is at most 2; otherwise accept by default. -/
def matches_experience_requirements (text : List Char) : Bool :=
  if text.isEmpty then false
  else
    let tl := pyLower text
    if junior_keywords.any (fun k => strContains tl k) then
      !(has_non_developer_keywords tl)
    else
      match experienceYearsFound tl with
      | some years => decide (years ≤ 2)
      | none => true

/-- `RussianJobFilter.matches_remote_requirement`. -/
def matches_remote_requirement (text : List Char) : Bool :=
  if text.isEmpty then false
  else remote_keywords.any (fun k => strContains (pyLower text) k)

/-- `RussianJobFilter.matches_date_filter`: timestamps are integers (hours
on an absolute scale); a nonpositive window disables the gate, an absent
date passes, otherwise the date must be at least `now` minus the window.
(The timezone fix-up of the source does not change the comparison.) -/
def matches_date_filter_ru (hours now : Int) (d : Option Int) : Bool :=
  if hours ≤ 0 then true
  else
    match d with
    | none => true
    | some t => decide (now - hours ≤ t)

/-! ## Messages and the gate chain -/

/-- A message dict as the filters read it: each field is `some v` when the
key is present (with `v = none` embedding a `None` value). -/
structure PyMessage where
  messageField : Option (Option (List Char)) := none
  textField : Option (Option (List Char)) := none
  captionField : Option (Option (List Char)) := none
  dateField : Option (Option Int) := none
  messageDateField : Option (Option Int) := none

/-- `_extract_message_text`: first of the `message`/`text`/`caption` keys,
with `or ''` collapsing a `None` value. -/
def extract_message_text (m : PyMessage) : List Char :=
  match m.messageField with
  | some v => v.getD []
  | none =>
    match m.textField with
    | some v => v.getD []
    | none =>
      match m.captionField with
      | some v => v.getD []
      | none => []

/-- `_extract_message_date`: the `date` or `message_date` key (either may
hold `None`), else `datetime.now()`. -/
def extract_message_date (now : Int) (m : PyMessage) : Option Int :=
  match m.dateField with
  | some v => v
  | none =>
    match m.messageDateField with
    | some v => v
    | none => some now

/-- The construction-time state of a `RussianJobFilter`: keywords are
lowercased once in `__init__`. -/
structure RussianJobFilterCfg where
  keywords : List (List Char)
  dateFilterHours : Int

/-- `RussianJobFilter.__init__`. -/
def mkRussianJobFilter (keywords : List (List Char)) (hours : Int) :
    RussianJobFilterCfg :=
  ⟨keywords.map pyLower, hours⟩

/-- The `try:` body of `RussianJobFilter.filter_message`, gate by gate in
source order; `Except` carries any exception the body would raise. -/
def russian_filter_body (cfg : RussianJobFilterCfg) (now : Int)
    (m : PyMessage) : Except (List Char) Bool :=
  let text := extract_message_text m
  if text.isEmpty then Except.ok false
  else if !matches_keywords cfg.keywords text then Except.ok false
  else if !matches_date_filter_ru cfg.dateFilterHours now
      (extract_message_date now m) then Except.ok false
  else if has_exclude_keywords text then Except.ok false
  else if has_resume_keywords text then Except.ok false
  else if has_non_developer_keywords text then Except.ok false
  else if !matches_experience_requirements text then Except.ok false
  else if !matches_remote_requirement text then Except.ok false
  else Except.ok true

/-- The `try/except` wrapper shared by `RussianJobFilter.filter_message`
and `MessageFilter.filter_message`: any exception from the body becomes an
overall `False` (reject); a normal result passes through. -/
def catchToReject : Except (List Char) Bool → Bool
  | Except.ok b => b
  | Except.error _ => false

/-- `RussianJobFilter.filter_message`. -/
def russian_filter_message (cfg : RussianJobFilterCfg) (now : Int)
    (m : PyMessage) : Bool :=
  catchToReject (russian_filter_body cfg now m)

/-- The eight gates of `RussianJobFilter.filter_message`, as named stages. -/
inductive Gate where
  | textPresence
  | keywordMatch
  | recency
  | seniorityExclusion
  | resumeExclusion
  | nonDeveloperExclusion
  | experienceYears
  | remoteRequirement
deriving DecidableEq, Repr

/-- Whether a single gate passes a message. -/
def gatePasses (cfg : RussianJobFilterCfg) (now : Int) (m : PyMessage) :
    Gate → Bool
  | .textPresence => !(extract_message_text m).isEmpty
  | .keywordMatch => matches_keywords cfg.keywords (extract_message_text m)
  | .recency => matches_date_filter_ru cfg.dateFilterHours now
      (extract_message_date now m)
  | .seniorityExclusion => !has_exclude_keywords (extract_message_text m)
  | .resumeExclusion => !has_resume_keywords (extract_message_text m)
  | .nonDeveloperExclusion =>
      !has_non_developer_keywords (extract_message_text m)
  | .experienceYears => matches_experience_requirements (extract_message_text m)
  | .remoteRequirement => matches_remote_requirement (extract_message_text m)

/-- The source order of the gates in `filter_message`. -/
def gateOrder : List Gate :=
  [ .textPresence, .keywordMatch, .recency, .seniorityExclusion,
    .resumeExclusion, .nonDeveloperExclusion, .experienceYears,
    .remoteRequirement ]

/-- Evaluate gates in order, recording which were evaluated; the first
failing gate ends the run with `false`. -/
def runGates (p : Gate → Bool) : List Gate → List Gate × Bool
  | [] => ([], true)
  | g :: gs =>
    if p g then
      let r := runGates p gs
      (g :: r.1, r.2)
    else ([g], false)

/-- `RussianJobFilter.filter_message` with its evaluation trace: the gates
evaluated, in order, and the decision. -/
def russian_filter_traced (cfg : RussianJobFilterCfg) (now : Int)
    (m : PyMessage) : List Gate × Bool :=
  runGates (gatePasses cfg now m) gateOrder

/-! ## Reporting queries -/

/-- `RussianJobFilter.get_matched_keywords`: configured keywords occurring
in the text, in configured order. -/
def get_matched_keywords (cfg : RussianJobFilterCfg) (text : List Char) :
    List (List Char) :=
  if text.isEmpty then []
  else cfg.keywords.filter (fun k => strContains (pyLower text) k)

/-- The dict `RussianJobFilter.get_experience_info` builds for non-empty
text. -/
structure ExperienceInfo where
  is_junior : Bool
  experience_years : Option Nat
  is_remote : Bool
  is_developer_position : Bool
  meets_requirements : Bool
deriving DecidableEq, Repr

/-- `RussianJobFilter.get_experience_info`; `none` is the empty dict
returned for empty text.  `meets_requirements` keeps Python's
`A or B and C` grouping `A ∨ (B ∧ C)`. -/
def get_experience_info (text : List Char) : Option ExperienceInfo :=
  if text.isEmpty then none
  else
    let tl := pyLower text
    let juniorFound := junior_keywords.any (fun k => strContains tl k)
    let nonDevFound := has_non_developer_keywords tl
    let years := experienceYearsFound tl
    let remoteFound := remote_keywords.any (fun k => strContains tl k)
    let yearsOk : Bool :=
      match years with
      | some y => decide (y ≤ 2) && !nonDevFound
      | none => false
    some
      { is_junior := juniorFound && !nonDevFound
        experience_years := years
        is_remote := remoteFound
        is_developer_position := !nonDevFound
        meets_requirements :=
          (juniorFound && !nonDevFound) || (yearsOk && remoteFound) }

/-- The dict `RussianJobFilter.get_salary_info` builds for non-empty text
(`to_dict` serialization dropped: the fields carry the same data). -/
structure SalaryInfo where
  salaries_found : Bool
  salary_count : Nat
  primary_salary : Option SalaryRange
  all_salaries : List SalaryRange
deriving DecidableEq, Repr

/-- `RussianJobFilter.get_salary_info`; `none` is the empty dict returned
for empty text. -/
def get_salary_info (text : List Char) : Option SalaryInfo :=
  if text.isEmpty then none
  else
    let salaries := extract_salaries text
    if salaries.isEmpty then some ⟨false, 0, none, []⟩
    else some ⟨true, salaries.length, salaries.head?, salaries⟩

/-! ## `MessageFilter` and `AdvancedFilter` -/

/-- `MessageFilter.matches_date_filter` inside `filter_message`'s `try:`:
unlike the Russian variant it has no `None` guard, so a `None` date raises
`AttributeError` at `message_date.tzinfo`. -/
def matches_date_filter_basicE (hours now : Int) (d : Option Int) :
    Except (List Char) Bool :=
  if hours ≤ 0 then Except.ok true
  else
    match d with
    | none => Except.error "AttributeError: NoneType has no tzinfo".data
    | some t => Except.ok (decide (now - hours ≤ t))

/-- Construction-time state of a `MessageFilter`. -/
structure MessageFilterCfg where
  keywords : List (List Char)
  dateFilterHours : Int

/-- `MessageFilter.__init__`. -/
def mkMessageFilter (keywords : List (List Char)) (hours : Int) :
    MessageFilterCfg :=
  ⟨keywords.map pyLower, hours⟩

/-- The `try:` body of `MessageFilter.filter_message`. -/
def basic_filter_body (cfg : MessageFilterCfg) (now : Int) (m : PyMessage) :
    Except (List Char) Bool :=
  let text := extract_message_text m
  if text.isEmpty then Except.ok false
  else if !matches_keywords cfg.keywords text then Except.ok false
  else matches_date_filter_basicE cfg.dateFilterHours now
    (extract_message_date now m)

/-- `MessageFilter.filter_message`. -/
def basic_filter_message (cfg : MessageFilterCfg) (now : Int)
    (m : PyMessage) : Bool :=
  catchToReject (basic_filter_body cfg now m)

/-- Python truthiness of an `Optional[int]`. -/
def optIntTruthy : Option Int → Bool
  | none => false
  | some n => n != 0

/-- Construction-time state of an `AdvancedFilter`. -/
structure AdvancedFilterCfg where
  keywords : List (List Char)
  dateFilterHours : Int
  advExcludeKeywords : List (List Char)
  minSalary : Option Int
  maxSalary : Option Int

/-- Whether `AdvancedFilter.filter_message` reaches its salary-range stage
(which immediately runs the salary extractor): the inherited basic filter
passed, no advanced exclude keyword hit, and a salary bound is configured
and truthy. -/
def advanced_salary_invoked (cfg : AdvancedFilterCfg) (now : Int)
    (m : PyMessage) : Bool :=
  basic_filter_message ⟨cfg.keywords, cfg.dateFilterHours⟩ now m &&
  !(cfg.advExcludeKeywords.any (fun k =>
      strContains (pyLower (extract_message_text m)) k)) &&
  (optIntTruthy cfg.minSalary || optIntTruthy cfg.maxSalary)

/-! ## Concrete scenario data -/

/-- The factor `normalize_to_yearly` multiplies by: the `conversions` entry
for the period, defaulting to 1 (in particular 1 for `yearly`, where the
source returns early). -/
def yearlyFactor (period : List Char) : Int :=
  ((conversions.find? (fun p => p.1 == period)).map (fun p => p.2)).getD 1

/-- The message text of the acceptance scenario. -/
def c1text : List Char :=
  "Junior Python developer for remote work, salary $50k-$80k USD".data

/-- A `RussianJobFilter(["python"], 24)`. -/
def pythonCfg : RussianJobFilterCfg := mkRussianJobFilter ["python".data] 24

/-- The acceptance-scenario message, timestamped at hour 0 (evaluated with
`now = 0`, inside the 24-hour window). -/
def c1msg : PyMessage :=
  { messageField := some (some c1text), dateField := some (some 0) }

/-- The primary salary the code actually extracts from `c1text`: the single
figure `$50k` (the `$50k-$80k` range is not matched by any range pattern,
and the period window picks up `mo` inside `remote`). -/
def c1primary : SalaryRange :=
  { min_amount := some ⟨50000, 0⟩
    max_amount := none
    currency := "USD".data
    period := "monthly".data
    is_range := false
    raw_text := "$50k".data }

/-- The seniority scenario: the same text with `Senior` inserted. -/
def senText : List Char :=
  "Senior Junior Python developer for remote work, salary $50k-$80k USD".data

/-- The seniority-scenario message. -/
def senMsg : PyMessage :=
  { messageField := some (some senText), dateField := some (some 0) }

/-- The experience scenario text. -/
def c10text : List Char := "Python developer, 5 years experience, remote".data

/-- The experience-scenario message. -/
def c10msg : PyMessage :=
  { messageField := some (some c10text), dateField := some (some 0) }

/-- A `MessageFilter(["python"], 24)`. -/
def basicPythonCfg : MessageFilterCfg := mkMessageFilter ["python".data] 24

/-- A message whose `date` key is present but holds `None`: inside
`MessageFilter.filter_message` this raises `AttributeError` at
`message_date.tzinfo`. -/
def noneDateMsg : PyMessage :=
  { messageField := some (some "python remote".data), dateField := some none }

/-- A monthly salary used to exhibit the in-place mutation of
`normalize_to_yearly`. -/
def monthlySalary : SalaryRange :=
  mkSalaryRange (some ⟨1000, 0⟩) none "USD".data "monthly".data false "".data

/-- A yearly salary (already normalized). -/
def yearlySalary : SalaryRange :=
  mkSalaryRange (some ⟨50000, 0⟩) none "USD".data "yearly".data false "".data

/-- The yearly candidates of the `filter_by_range` scenario. -/
def c7s30 : SalaryRange :=
  mkSalaryRange (some ⟨30000, 0⟩) none "USD".data "yearly".data false "".data

/-- Second candidate of the `filter_by_range` scenario. -/
def c7s50 : SalaryRange :=
  mkSalaryRange (some ⟨50000, 0⟩) none "USD".data "yearly".data false "".data

/-- Third candidate of the `filter_by_range` scenario. -/
def c7s80 : SalaryRange :=
  mkSalaryRange (some ⟨80000, 0⟩) none "USD".data "yearly".data false "".data

/-- An `AdvancedFilter(["python"], min_salary=40000, max_salary=100000)`. -/
def advPythonCfg : AdvancedFilterCfg :=
  { keywords := ["python".data]
    dateFilterHours := 24
    advExcludeKeywords := []
    minSalary := some 40000
    maxSalary := some 100000 }

/-- A message matching no configured include-keyword. -/
def noKwMsg : PyMessage :=
  { messageField := some (some "Java developer for office work".data)
    dateField := some (some 0) }

/-! ## Order and key lemmas for `Dec` -/

theorem Dec.le_of_gt_eq_false {a b : Dec} (h : Dec.gt a b = false) :
    Dec.le a b = true := by
  simp only [Dec.gt, Dec.lt, decide_eq_false_iff_not, not_lt] at h
  simpa [Dec.le] using h

theorem Dec.le_of_gt_eq_true {a b : Dec} (h : Dec.gt a b = true) :
    Dec.le b a = true := by
  simp only [Dec.gt, Dec.lt, decide_eq_true_eq] at h
  simpa [Dec.le] using le_of_lt h

theorem Dec.le_of_le_eq_false {a b : Dec} (h : Dec.le a b = false) :
    Dec.le b a = true := by
  simp only [Dec.le, decide_eq_false_iff_not, not_le] at h
  simpa [Dec.le] using le_of_lt h

theorem Dec.eqv_comm (a b : Dec) : Dec.eqv a b = Dec.eqv b a := by
  simp only [Dec.eqv]
  by_cases h : a.num * (10 : Int) ^ b.exp = b.num * (10 : Int) ^ a.exp
  · simp [h]
  · simp [h, Ne.symm h]

theorem optDecEqv_comm (a b : Option Dec) : optDecEqv a b = optDecEqv b a := by
  cases a <;> cases b <;> simp [optDecEqv, Dec.eqv_comm]

theorem beqList_comm (a b : List Char) : (a == b) = (b == a) := by
  by_cases h : a = b
  · simp [h]
  · simp [h, Ne.symm h]

theorem dedupKeyEqv_comm (a b : SalaryRange) :
    dedupKeyEqv a b = dedupKeyEqv b a := by
  simp only [dedupKeyEqv]
  rw [optDecEqv_comm, optDecEqv_comm a.max_amount,
    beqList_comm a.currency, beqList_comm a.period]

/-! ## Lemmas about the sort and the deduplication -/

theorem insertSorted_perm (x : SalaryRange) (l : List SalaryRange) :
    List.Perm (insertSorted x l) (x :: l) := by
  induction l with
  | nil => simp [insertSorted]
  | cons y ys ih =>
    simp only [insertSorted]
    by_cases h : Dec.le (sortKey x) (sortKey y) = true
    · simp [h]
    · simp only [h, if_false]
      exact ((ih.cons y).trans (List.Perm.swap x y ys))

theorem sortByMin_perm (l : List SalaryRange) :
    List.Perm (sortByMin l) l := by
  induction l with
  | nil => simp [sortByMin]
  | cons x xs ih =>
    exact (insertSorted_perm x (sortByMin xs)).trans (ih.cons x)

theorem insertSorted_headOpt (x : SalaryRange) (l : List SalaryRange) :
    (insertSorted x l).head? = some x ∨ (insertSorted x l).head? = l.head? := by
  cases l with
  | nil => simp [insertSorted]
  | cons y ys =>
    simp only [insertSorted]
    by_cases h : Dec.le (sortKey x) (sortKey y) = true
    · simp [h]
    · simp [h]

theorem chain'_insertSorted (x : SalaryRange) (l : List SalaryRange)
    (h : List.Chain' (fun a b => Dec.le (sortKey a) (sortKey b) = true) l) :
    List.Chain' (fun a b => Dec.le (sortKey a) (sortKey b) = true)
      (insertSorted x l) := by
  induction l with
  | nil => simp [insertSorted]
  | cons y ys ih =>
    rw [List.chain'_cons'] at h
    simp only [insertSorted]
    by_cases hle : Dec.le (sortKey x) (sortKey y) = true
    · rw [if_pos hle, List.chain'_cons']
      refine ⟨?_, List.chain'_cons'.mpr h⟩
      intro z hz
      simp only [List.head?_cons, Option.mem_def, Option.some.injEq] at hz
      subst hz
      exact hle
    · rw [if_neg hle, List.chain'_cons']
      refine ⟨?_, ih h.2⟩
      intro z hz
      rcases insertSorted_headOpt x ys with hh | hh
      · rw [hh] at hz
        simp only [Option.mem_def, Option.some.injEq] at hz
        subst hz
        exact Dec.le_of_le_eq_false (by simpa using hle)
      · rw [hh] at hz
        exact h.1 z hz

theorem sortByMin_chain' (l : List SalaryRange) :
    List.Chain' (fun a b => Dec.le (sortKey a) (sortKey b) = true)
      (sortByMin l) := by
  induction l with
  | nil => simp [sortByMin]
  | cons x xs ih => exact chain'_insertSorted x (sortByMin xs) ih

theorem dedupAux_spec (l : List SalaryRange) : ∀ seen : List SalaryRange,
    (∀ s ∈ dedupAux seen l, ∀ t ∈ seen, dedupKeyEqv s t = false) ∧
    (dedupAux seen l).Pairwise (fun a b => dedupKeyEqv a b = false) := by
  induction l with
  | nil => intro seen; simp [dedupAux]
  | cons s rest ih =>
    intro seen
    by_cases hs : (seen.any (fun t => dedupKeyEqv s t)) = true
    · simp only [dedupAux, hs, if_true]
      exact ih seen
    · have hs' : (seen.any fun t => dedupKeyEqv s t) = false := by
        cases hb : (seen.any fun t => dedupKeyEqv s t)
        · rfl
        · exact absurd hb hs
      simp only [dedupAux, hs', Bool.false_eq_true, if_false]
      have hseen : ∀ t ∈ seen, dedupKeyEqv s t = false := by
        intro t ht
        by_contra hc
        exact hs (List.any_eq_true.mpr ⟨t, ht, by
          cases h : dedupKeyEqv s t
          · exact absurd h hc
          · simp [h]⟩)
      have h2 := ih (s :: seen)
      refine ⟨?_, ?_⟩
      · intro u hu t ht
        rcases List.mem_cons.mp hu with rfl | hu'
        · exact hseen t ht
        · exact h2.1 u hu' t (List.mem_cons_of_mem s ht)
      · rw [List.pairwise_cons]
        refine ⟨?_, h2.2⟩
        intro b hb
        have := h2.1 b hb s (List.mem_cons_self s seen)
        rw [dedupKeyEqv_comm]
        exact this

theorem deduplicate_pairwise (l : List SalaryRange) :
    (deduplicate_salaries l).Pairwise (fun a b => dedupKeyEqv a b = false) :=
  (dedupAux_spec l []).2

/-! ## Lemmas about the gate chain -/

theorem runGates_take (p : Gate → Bool) : ∀ l : List Gate,
    (runGates p l).1 = l.take (runGates p l).1.length := by
  intro l
  induction l with
  | nil => simp [runGates]
  | cons g gs ih =>
    by_cases h : p g = true
    · simp only [runGates, h, if_true, List.length_cons, List.take_succ_cons]
      exact congrArg (g :: ·) ih
    · simp [runGates, h]

theorem runGates_false_spec (p : Gate → Bool) : ∀ l : List Gate,
    (runGates p l).2 = false →
    ∃ g, (runGates p l).1.getLast? = some g ∧ p g = false ∧
      ∀ h ∈ (runGates p l).1.dropLast, p h = true := by
  intro l
  induction l with
  | nil => simp [runGates]
  | cons g gs ih =>
    intro hfalse
    by_cases h : p g = true
    · simp only [runGates, h, if_true] at hfalse ⊢
      rcases ih hfalse with ⟨g', hlast, hfail, hpass⟩
      have hne : (runGates p gs).1 ≠ [] := by
        intro hnil
        rw [hnil] at hlast
        exact Option.noConfusion hlast
      rcases List.exists_cons_of_ne_nil hne with ⟨a, as, ha⟩
      refine ⟨g', ?_, hfail, ?_⟩
      · rw [ha] at hlast ⊢
        simpa [List.getLast?_cons_cons] using hlast
      · intro x hx
        rw [ha] at hpass hx
        simp only [List.dropLast_cons₂, List.mem_cons] at hx
        rcases hx with rfl | hx
        · exact h
        · exact hpass x hx
    · simp only [runGates, h, if_false]
      exact ⟨g, by simp, by simpa using h, by simp⟩

theorem russian_traced_decision (cfg : RussianJobFilterCfg) (now : Int)
    (m : PyMessage) :
    russian_filter_message cfg now m = (russian_filter_traced cfg now m).2 := by
  simp only [russian_filter_message, russian_filter_body, catchToReject,
    russian_filter_traced, gateOrder, runGates, gatePasses]
  cases h1 : (extract_message_text m).isEmpty <;>
  cases h2 : matches_keywords cfg.keywords (extract_message_text m) <;>
  cases h3 : matches_date_filter_ru cfg.dateFilterHours now
    (extract_message_date now m) <;>
  cases h4 : has_exclude_keywords (extract_message_text m) <;>
  cases h5 : has_resume_keywords (extract_message_text m) <;>
  cases h6 : has_non_developer_keywords (extract_message_text m) <;>
  cases h7 : matches_experience_requirements (extract_message_text m) <;>
  cases h8 : matches_remote_requirement (extract_message_text m) <;>
  simp [h1, h2, h3, h4, h5, h6, h7, h8, runGates]

/-- Helper: the endpoint update of `normalize_to_yearly` is multiplication
by the factor on every present endpoint (a zero endpoint is skipped by the
truthiness guard, but zero times the factor is zero). -/
theorem normalizeEndpointMap (factor : Int) (o : Option Dec) :
    (match o with
     | some d => if d.truthy then some (d.mulInt factor) else some d
     | none => none) = o.map (fun d => d.mulInt factor) := by
  cases o with
  | none => rfl
  | some d =>
    by_cases h : d.truthy = true
    · simp [h]
    · have h' : d.truthy = false := by
        cases hb : d.truthy
        · rfl
        · exact absurd hb h
      have h0 : d.num = 0 := by
        simpa [Dec.truthy] using h'
      cases d with
      | mk n e =>
        simp only at h0
        subst h0
        simp [h', Dec.mulInt]

/-- Helper: mapping multiplication by factor 1 over an optional decimal is
the identity. -/
theorem mapMulIntOne (o : Option Dec) :
    o.map (fun d => d.mulInt (1 : Int)) = o := by
  cases o with
  | none => rfl
  | some d => cases d; simp [Dec.mulInt]

/-- C2: the amount parser strips thousands commas and rewrites a trailing
`k`/`K` to `000`; failures are `None`, never an exception (the embedding is
a total function into `Option`).  Evaluated at the spec's instances: the
code parses `"1.5k"` to `Decimal("1.5000")`, numerically 1.5 and NOT the
1500 the claim (and the repository's own `test_amount_parsing`) require,
because appending `000` after a decimal point only adds fractional zeros;
`"50,000"` gives 50000 and `"abc"` gives `None` as claimed. -/
theorem parse_amount_at_bug_input :
    parse_amount "1.5k".data = some ⟨15000, 4⟩ ∧
    Dec.eqv ⟨15000, 4⟩ ⟨1500, 0⟩ = false ∧
    Dec.eqv ⟨15000, 4⟩ ⟨15, 1⟩ = true ∧
    parse_amount "50,000".data = some ⟨50000, 0⟩ ∧
    parse_amount "abc".data = none := by decide

/-- C3: a `SalaryRange` constructed with both endpoints present always
satisfies `min_amount ≤ max_amount` after `__post_init__`: the constructor
swaps reversed endpoints and is total (never fails). -/
theorem salary_range_min_le_max (a b : Dec) (cur per : List Char)
    (isRange : Bool) (raw : List Char) :
    ∃ x y : Dec,
      (mkSalaryRange (some a) (some b) cur per isRange raw).min_amount = some x ∧
      (mkSalaryRange (some a) (some b) cur per isRange raw).max_amount = some y ∧
      Dec.le x y = true := by
  by_cases h : Dec.gt a b = true
  · exact ⟨b, a, by simp [mkSalaryRange, h], by simp [mkSalaryRange, h],
      Dec.le_of_gt_eq_true h⟩
  · have h' : Dec.gt a b = false := by
      cases hb : Dec.gt a b
      · rfl
      · exact absurd hb h
    exact ⟨a, b, by simp [mkSalaryRange, h'], by simp [mkSalaryRange, h'],
      Dec.le_of_gt_eq_false h'⟩

/-- C4: `normalize_to_yearly` always yields period `yearly`, with every
present endpoint multiplied by the fixed period factor (hourly 2080,
daily 260, weekly 52, monthly 12, yearly 1), and it is the identity on an
already-yearly value (idempotence). -/
theorem normalize_to_yearly_spec (s : SalaryRange) :
    (normalize_to_yearly s).period = "yearly".data ∧
    (normalize_to_yearly s).min_amount
      = s.min_amount.map (fun d => d.mulInt (yearlyFactor s.period)) ∧
    (normalize_to_yearly s).max_amount
      = s.max_amount.map (fun d => d.mulInt (yearlyFactor s.period)) ∧
    yearlyFactor "hourly".data = 2080 ∧ yearlyFactor "daily".data = 260 ∧
    yearlyFactor "weekly".data = 52 ∧ yearlyFactor "monthly".data = 12 ∧
    yearlyFactor "yearly".data = 1 ∧
    (s.period = "yearly".data → normalize_to_yearly s = s) := by
  by_cases hp : (s.period == "yearly".data) = true
  · have hpe : s.period = "yearly".data := by simpa using hp
    refine ⟨?_, ?_, ?_, by decide, by decide, by decide, by decide, by decide,
      fun _ => by rw [normalize_to_yearly, if_pos hp]⟩
    · rw [normalize_to_yearly, if_pos hp, hpe]
    · rw [normalize_to_yearly, if_pos hp, hpe]
      have hf : yearlyFactor "yearly".data = 1 := by decide
      rw [hf, mapMulIntOne]
    · rw [normalize_to_yearly, if_pos hp, hpe]
      have hf : yearlyFactor "yearly".data = 1 := by decide
      rw [hf, mapMulIntOne]
  · have hpe : s.period ≠ "yearly".data := by simpa using hp
    refine ⟨?_, ?_, ?_, by decide, by decide, by decide, by decide, by decide,
      fun hc => absurd hc hpe⟩
    · rw [normalize_to_yearly, if_neg (by simpa using hp)]
    · rw [normalize_to_yearly, if_neg (by simpa using hp)]
      exact normalizeEndpointMap _ s.min_amount
    · rw [normalize_to_yearly, if_neg (by simpa using hp)]
      exact normalizeEndpointMap _ s.max_amount

/-- C4 witness: on a concrete already-yearly value the idempotence
hypothesis is dischargeable and normalization is the identity. -/
theorem normalize_to_yearly_spec_witness :
    normalize_to_yearly yearlySalary = yearlySalary ∧
    (normalize_to_yearly yearlySalary).period = "yearly".data := by
  have h := normalize_to_yearly_spec yearlySalary
  exact ⟨h.2.2.2.2.2.2.2.2 (by decide), h.1⟩

/-- C5 counterexample: `normalize_to_yearly` does NOT leave its argument
unchanged: on a monthly salary the call mutates the argument in place (the
returned object is the argument), so after the call the argument's period
is `yearly` and its endpoint is scaled — the claim's frame property fails. -/
theorem normalize_mutation_counterexample :
    ¬((normalize_to_yearly_call monthlySalary).2 = monthlySalary) := by decide

/-- C5 (amended): `normalize_to_yearly` returns its own argument, mutated:
after the call the argument's fields equal the returned value's fields, and
only for an already-yearly input is the argument left unchanged. -/
theorem normalize_to_yearly_aliases_argument (s : SalaryRange) :
    (normalize_to_yearly_call s).2 = (normalize_to_yearly_call s).1 ∧
    (s.period = "yearly".data → (normalize_to_yearly_call s).2 = s) := by
  refine ⟨rfl, fun h => ?_⟩
  simp [normalize_to_yearly_call, normalize_to_yearly, h]

/-- C5 witness: concrete instantiation of the amended claim at an
already-yearly salary. -/
theorem normalize_to_yearly_aliases_argument_witness :
    (normalize_to_yearly_call yearlySalary).2 = yearlySalary :=
  (normalize_to_yearly_aliases_argument yearlySalary).2 (by decide)

/-- C6: for every text, `extract_salaries` is exactly
sort-after-deduplication of the successfully parsed candidates (with empty
text short-circuiting to `[]`); its output is sorted ascending by minimum
amount (absent minimum counting as zero) and contains no two candidates
with the same `(min, max, currency, period)` key; the embedding is a total
function of the text alone, so it never raises and a second run returns the
identical list. -/
theorem extract_salaries_spec (text : List Char) :
    extract_salaries text
      = (if text.isEmpty then []
         else sortByMin (deduplicate_salaries (collectCandidates text))) ∧
    List.Chain' (fun a b => Dec.le (sortKey a) (sortKey b) = true)
      (extract_salaries text) ∧
    (extract_salaries text).Pairwise (fun a b => dedupKeyEqv a b = false) ∧
    extract_salaries ([] : List Char) = [] ∧
    extract_salaries text = extract_salaries text := by
  refine ⟨rfl, ?_, ?_, rfl, rfl⟩
  · by_cases h : text.isEmpty = true
    · simp [extract_salaries, h]
    · rw [extract_salaries, if_neg (by simpa using h)]
      exact sortByMin_chain' _
  · by_cases h : text.isEmpty = true
    · simp [extract_salaries, h]
    · rw [extract_salaries, if_neg (by simpa using h)]
      have hsymm : ∀ {x y : SalaryRange},
          dedupKeyEqv x y = false → dedupKeyEqv y x = false := by
        intro x y hxy
        rw [dedupKeyEqv_comm]
        exact hxy
      exact (List.Perm.pairwise_iff hsymm
        (sortByMin_perm (deduplicate_salaries (collectCandidates text)))).mpr
        (deduplicate_pairwise _)

/-- C7: `filter_by_range` on the yearly candidates 30000, 50000, 80000 with
bounds 40000–60000 retains [30000, 50000], NOT only [50000] as the claim
(and the repository's own `test_filter_by_range`) require: the minimum-bound
check is skipped entirely for a candidate whose `max_amount` is absent, so
the 30000 candidate survives; and with only the minimum bound configured,
all three candidates survive (the test expects two). -/
theorem filter_by_range_at_bug_input :
    filter_by_range [c7s30, c7s50, c7s80] (some ⟨40000, 0⟩) (some ⟨60000, 0⟩)
      "USD".data = [c7s30, c7s50] ∧
    filter_by_range [c7s30, c7s50, c7s80] (some ⟨40000, 0⟩) (some ⟨60000, 0⟩)
      "USD".data ≠ [c7s50] ∧
    filter_by_range [c7s30, c7s50, c7s80] (some ⟨40000, 0⟩) none
      "USD".data = [c7s30, c7s50, c7s80] := by decide

/-- C9: both `filter_message` entry points are the `try/except` combinator
`catchToReject` applied to their gate-chain body; `catchToReject` yields
accept exactly on a normal `True` result, so an exception anywhere in the
body is converted to reject and never propagates (the embedding is total)
and is never treated as accept.  Concretely, a message whose `date` key
holds `None` makes the basic body raise `AttributeError`, and the filter
returns reject. -/
theorem classification_catches_errors :
    (∀ (cfg : RussianJobFilterCfg) (now : Int) (m : PyMessage),
      russian_filter_message cfg now m
        = catchToReject (russian_filter_body cfg now m)) ∧
    (∀ (cfg : MessageFilterCfg) (now : Int) (m : PyMessage),
      basic_filter_message cfg now m
        = catchToReject (basic_filter_body cfg now m)) ∧
    (∀ e : Except (List Char) Bool, catchToReject e = true ↔ e = Except.ok true) ∧
    (∀ err : List Char, catchToReject (Except.error err) = false) ∧
    basic_filter_body basicPythonCfg 0 noneDateMsg
      = Except.error "AttributeError: NoneType has no tzinfo".data ∧
    basic_filter_message basicPythonCfg 0 noneDateMsg = false := by
  refine ⟨fun _ _ _ => rfl, fun _ _ _ => rfl, ?_, fun _ => rfl, rfl, by decide⟩
  intro e
  cases e with
  | ok b => cases b <;> simp [catchToReject]
  | error err => simp [catchToReject]

/-- C1: on the scenario message the classifier accepts, the matched-keyword
list is `["python"]`, the experience info reports junior and remote, and
salary info is found — but the primary salary the code extracts is the
single figure `min 50000, max None` (raw text `$50k`, period `monthly`
picked up from the `mo` inside `remote`), NOT the range `50000–80000` the
claim (and the repository's `test_salary_ranges` /
`test_extract_salary_from_text`) require: no range pattern accepts a
currency symbol on both endpoints of `$50k-$80k`. -/
theorem acceptance_scenario_eval :
    russian_filter_message pythonCfg 0 c1msg = true ∧
    get_matched_keywords pythonCfg c1text = ["python".data] ∧
    (get_experience_info c1text).map ExperienceInfo.is_junior = some true ∧
    (get_experience_info c1text).map ExperienceInfo.is_remote = some true ∧
    (get_salary_info c1text).map SalaryInfo.salaries_found = some true ∧
    ((get_salary_info c1text).bind SalaryInfo.primary_salary) = some c1primary ∧
    c1primary.min_amount = some ⟨50000, 0⟩ ∧
    c1primary.max_amount = none ∧
    c1primary.max_amount ≠ some ⟨80000, 0⟩ := by decide

/-- C8: the gate chain of `filter_message` evaluates exactly the gates of
`gateOrder` (text presence, keyword, recency, seniority, resume,
non-developer, experience, remote) in that order: the evaluated trace is
always an initial segment of `gateOrder`, the decision agrees with
`filter_message`, and on a reject the last evaluated gate is the failing
one while every earlier gate passed and no later gate was evaluated.  A
message with no include-keyword match never reaches the salary extractor
(in the advanced filter the salary stage is not invoked; the Russian
filter's chain contains no salary gate at all).  Concretely, the text with
`Senior` inserted is rejected at the seniority gate, with only the first
four gates evaluated — salary extraction never runs. -/
theorem gate_chain_order_short_circuit :
    (∀ (cfg : RussianJobFilterCfg) (now : Int) (m : PyMessage),
      (russian_filter_traced cfg now m).1
        = gateOrder.take (russian_filter_traced cfg now m).1.length ∧
      russian_filter_message cfg now m = (russian_filter_traced cfg now m).2 ∧
      ((russian_filter_traced cfg now m).2 = false →
        ∃ g, (russian_filter_traced cfg now m).1.getLast? = some g ∧
          gatePasses cfg now m g = false ∧
          ∀ g' ∈ (russian_filter_traced cfg now m).1.dropLast,
            gatePasses cfg now m g' = true)) ∧
    (∀ (acfg : AdvancedFilterCfg) (now : Int) (m : PyMessage),
      matches_keywords acfg.keywords (extract_message_text m) = false →
      advanced_salary_invoked acfg now m = false) ∧
    russian_filter_traced pythonCfg 0 senMsg
      = ([.textPresence, .keywordMatch, .recency, .seniorityExclusion], false) := by
  refine ⟨?_, ?_, by decide⟩
  · intro cfg now m
    exact ⟨runGates_take _ gateOrder, russian_traced_decision cfg now m,
      runGates_false_spec _ gateOrder⟩
  · intro acfg now m h
    by_cases ht : (extract_message_text m).isEmpty = true
    · simp [advanced_salary_invoked, basic_filter_message, basic_filter_body,
        catchToReject, ht]
    · simp [advanced_salary_invoked, basic_filter_message, basic_filter_body,
        catchToReject, ht, h]

/-- C8 witness: the short-circuit implication instantiated at the concrete
seniority-scenario message (the failing gate is the seniority gate and the
three gates before it passed), and the no-keyword implication instantiated
at a concrete non-matching message. -/
theorem gate_chain_order_short_circuit_witness :
    (∃ g, (russian_filter_traced pythonCfg 0 senMsg).1.getLast? = some g ∧
      gatePasses pythonCfg 0 senMsg g = false ∧
      ∀ g' ∈ (russian_filter_traced pythonCfg 0 senMsg).1.dropLast,
        gatePasses pythonCfg 0 senMsg g' = true) ∧
    advanced_salary_invoked advPythonCfg 0 noKwMsg = false := by
  refine ⟨(gate_chain_order_short_circuit.1 pythonCfg 0 senMsg).2.2 (by decide),
    gate_chain_order_short_circuit.2.1 advPythonCfg 0 noKwMsg (by decide)⟩

/-- C10: the experience gate accepts on a junior indicator when the
non-developer check did not fire; with no junior indicator it accepts iff
the first extracted years figure is at most 2; with neither it accepts by
default.  Concretely, `"Python developer, 5 years experience, remote"` with
keywords `["python"]` is rejected, and the full chain rejects it exactly at
the experience gate (the seventh evaluated gate). -/
theorem experience_gate_spec :
    (∀ text : List Char,
      (text.isEmpty = false →
        junior_keywords.any (fun k => strContains (pyLower text) k) = true →
        has_non_developer_keywords (pyLower text) = false →
        matches_experience_requirements text = true) ∧
      (∀ y : Nat, text.isEmpty = false →
        junior_keywords.any (fun k => strContains (pyLower text) k) = false →
        experienceYearsFound (pyLower text) = some y →
        (matches_experience_requirements text = true ↔ y ≤ 2)) ∧
      (text.isEmpty = false →
        junior_keywords.any (fun k => strContains (pyLower text) k) = false →
        experienceYearsFound (pyLower text) = none →
        matches_experience_requirements text = true)) ∧
    matches_experience_requirements c10text = false ∧
    russian_filter_traced pythonCfg 0 c10msg
      = ([.textPresence, .keywordMatch, .recency, .seniorityExclusion,
          .resumeExclusion, .nonDeveloperExclusion, .experienceYears],
         false) := by
  refine ⟨?_, by decide, by decide⟩
  intro text
  refine ⟨?_, ?_, ?_⟩
  · intro h0 hj hnd
    simp [matches_experience_requirements, h0, hj, hnd]
  · intro y h0 hj hy
    simp [matches_experience_requirements, h0, hj, hy]
  · intro h0 hj hy
    simp [matches_experience_requirements, h0, hj, hy]

/-- C10 witness: the three branches instantiated concretely — a junior
posting accepts, an explicit two-year requirement accepts (via the iff),
and a posting stating no requirement accepts by default. -/
theorem experience_gate_spec_witness :
    matches_experience_requirements "junior developer remote".data = true ∧
    matches_experience_requirements "python 2 years experience".data = true ∧
    matches_experience_requirements "python developer office".data = true := by
  refine ⟨(experience_gate_spec.1 "junior developer remote".data).1
      (by decide) (by decide) (by decide), ?_, ?_⟩
  · exact ((experience_gate_spec.1 "python 2 years experience".data).2.1 2
      (by decide) (by decide) (by decide)).mpr (by decide)
  · exact (experience_gate_spec.1 "python developer office".data).2.2
      (by decide) (by decide) (by decide)
